import Mathlib

/-!
# openstorage: the vfs reference driver and the volume REST handlers

A shallow embedding of `volume/drivers/vfs/vfs.go` and of the handlers of
`api/server/volume.go`.

* A Go `error` is represented by its message; `nil` is `none`.
* A Go pointer that the code tests against `nil` is an `Option`.
* A Go slice is a `List`; the `nil` slice is `[]`.  Volume records are read
  back from the key/value store, whose encoding drops an empty `attach_path`,
  so a record whose attach list has length 0 carries the `nil` slice.
* A call that can abort the goroutine returns a `Ret`, whose `panic` case is
  the Go run-time panic.
* The operating system, the uuid generator and the process configuration are
  a record of functions `Sys σ` over an arbitrary world state `σ`.
* The metadata store is the external collaborator of the specification: a
  map from volume id to record with atomic single-key operations, which fail
  only for a key that is missing or, on create, present.
* A handler is run against a driver given as a record of functions over a
  driver state; `logged` keeps a journal of the calls made, which is how the
  theorems speak about which driver operations a handler invokes.
-/

namespace OpenStorage

/-! ## Data model (package `api`) -/

/-- Name and labels that identify a volume (`api.VolumeLocator`). -/
structure VolumeLocator where
  Name : String
  VolumeLabels : List (String × String)
deriving DecidableEq, Repr

/-- Parent reference of a snapshot or clone (`api.Source`). -/
structure Source where
  Parent : String
  Seed : String
deriving DecidableEq, Repr

/-- Requested attributes of a volume (`api.VolumeSpec`); `Format` is the
numeric `api.FSType`. -/
structure VolumeSpec where
  Size : Nat
  Format : Nat
  VolumeLabels : List (String × String)
deriving DecidableEq, Repr

/-- A volume record (`api.Volume`), with the fields the driver reads or writes. -/
structure Volume where
  Id : String
  Source : Option Source
  Locator : Option VolumeLocator
  Spec : Option VolumeSpec
  Format : Nat
  DevicePath : String
  AttachPath : List String
deriving DecidableEq, Repr

/-- Outcome of a Go call: a normal return or a run-time panic. -/
inductive Ret (α : Type) where
  | ok (a : α)
  | panic (msg : String)
deriving DecidableEq, Repr

/-- Modelled from the spec: `volume.ErrNotSupported`, the typed "not supported"
result of a capability the driver does not implement (declared in package
`volume`, outside the sources at hand). -/
def ErrNotSupported : String := "Operation not supported"

/-- Modelled from the spec: the `NotFound` error of a lookup of an id that has
no record (returned by the key/value store, outside the sources at hand). -/
def ErrNotFound : String := "Key not found"

/-- Modelled from the spec: the error of creating a record under an id that
already has one (returned by the key/value store, outside the sources at hand). -/
def ErrExist : String := "Key already exists"

/-- The numeric value of `api.FSType_FS_TYPE_VFS`. -/
def FS_TYPE_VFS : Nat := 5

/-! ## Metadata store (`volume.StoreEnumerator`) -/

/-- Contents of the key/value store: the volume records, each kept under the
key of its own `Id` (every write of the store enumerator takes the record and
derives the key from it); the first record of an id is the current one. -/
abbrev Store := List Volume

/-- Key lookup. -/
def Store.get : Store → String → Option Volume
  | [], _ => none
  | v :: r, id => if v.Id = id then some v else Store.get r id

/-- Key write: replaces the record kept under the id of `v`, or adds one. -/
def Store.put : Store → Volume → Store
  | [], v => [v]
  | w :: r, v => if w.Id = v.Id then v :: r else w :: Store.put r v

/-- Key removal: no record of `id` remains. -/
def Store.del : Store → String → Store
  | [], _ => []
  | w :: r, id => if w.Id = id then Store.del r id else w :: Store.del r id

/-- Modelled from the spec: `GetVol` of the store enumerator (package `common`,
outside the sources at hand): the record stored under the id, or `NotFound`. -/
def GetVol (kv : Store) (volumeID : String) : Except String Volume :=
  match kv.get volumeID with
  | some v => .ok v
  | none => .error ErrNotFound

/-- Modelled from the spec: `CreateVol` of the store enumerator (package
`common`, outside the sources at hand): persists a new record; an id is
assigned once, so creating under an id that has a record fails. -/
def CreateVol (kv : Store) (v : Volume) : Option String × Store :=
  match kv.get v.Id with
  | some _ => (some ErrExist, kv)
  | none => (none, kv.put v)

/-- Modelled from the spec: `UpdateVol` of the store enumerator (package
`common`, outside the sources at hand): an atomic single-key put. -/
def UpdateVol (kv : Store) (v : Volume) : Option String × Store :=
  (none, kv.put v)

/-- Modelled from the spec: `DeleteVol` of the store enumerator (package
`common`, outside the sources at hand): an atomic single-key delete, which
fails with `NotFound` when the id has no record. -/
def DeleteVol (kv : Store) (volumeID : String) : Option String × Store :=
  match kv.get volumeID with
  | some _ => (none, kv.del volumeID)
  | none => (some ErrNotFound, kv)

/-- Modelled from the spec: `Inspect` of the store enumerator (package `common`,
outside the sources at hand): the current records of exactly the requested
ids, in order; it fails if any lookup fails. -/
def Inspect (kv : Store) : List String → List Volume × Option String
  | [] => ([], none)
  | id :: ids =>
    match GetVol kv id with
    | .error e => ([], some e)
    | .ok v =>
      match Inspect kv ids with
      | (_, some e) => ([], some e)
      | (vs, none) => (v :: vs, none)

/-! ## Environment of the vfs driver -/

/-- The collaborators of the vfs driver outside the repository, over a world
state `σ`: `config.VolumeBase`, `filepath.Join`, `uuid.New`, `os.MkdirAll`,
`os.RemoveAll`, `syscall.Mount` (source, target, fstype) and
`syscall.Unmount` (target). -/
structure Sys (σ : Type) where
  VolumeBase : String
  Join : String → String → String
  uuidNew : σ → String × σ
  MkdirAll : σ → String → Option String × σ
  RemoveAll : σ → String → σ
  Mount : σ → String → String → String → Option String × σ
  Unmount : σ → String → Option String × σ

/-- State the driver acts on: the world outside and the metadata store. -/
structure State (σ : Type) where
  os : σ
  kv : Store

/-- Go `strings.TrimSuffix`. -/
def TrimSuffix (s suffix : String) : String :=
  if suffix.data.isSuffixOf s.data then
    String.mk (s.data.take (s.data.length - suffix.data.length))
  else s

/-- Go conversion `string(i)` of an integer: the UTF-8 text of the code point,
or U+FFFD when it is not one. -/
def runeString (n : Nat) : String :=
  if n.isValidChar then String.singleton (Char.ofNat n) else String.singleton (Char.ofNat 0xFFFD)

/-- Modelled from the spec: `common.NewVolume` (package `common`, outside the
sources at hand): a new record for the id with the given locator, source and
spec and an empty attach list. -/
def NewVolume (volumeID : String) (fsType : Nat) (locator : Option VolumeLocator)
    (source : Option Source) (spec : Option VolumeSpec) : Volume :=
  { Id := volumeID, Source := source, Locator := locator, Spec := spec,
    Format := fsType, DevicePath := "", AttachPath := [] }

/-! ## The vfs driver (`volume/drivers/vfs/vfs.go`) -/

namespace vfs

/-- Error of `Mount` on a mounted volume:
`fmt.Errorf("Volume %q already mounted at %q", v.AttachPath[0])`, whose second
verb has no operand; the escaping that `%q` applies inside the quotes is not
modelled. -/
def errAlreadyMounted (attached : String) : String :=
  "Volume \"" ++ attached ++ "\" already mounted at %!q(MISSING)"

/-- Error of `Unmount` on a volume that is not mounted:
`fmt.Errorf("Device %v not mounted", volumeID)`. -/
def errNotMounted (volumeID : String) : String :=
  "Device " ++ volumeID ++ " not mounted"

/-- `driver.Create`. -/
def Create {σ : Type} (sys : Sys σ) (s : State σ) (locator : Option VolumeLocator)
    (source : Option Source) (spec : Option VolumeSpec) : (String × Option String) × State σ :=
  let (u, os1) := sys.uuidNew s.os
  let volumeID := TrimSuffix u "\n"
  match sys.MkdirAll os1 (sys.Join sys.VolumeBase volumeID) with
  | (some err, os2) => (("", some err), { s with os := os2 })
  | (none, os2) =>
    let v := NewVolume volumeID FS_TYPE_VFS locator source spec
    let v := { v with DevicePath := sys.Join sys.VolumeBase volumeID }
    match CreateVol s.kv v with
    | (some err, kv1) => (("", some err), { os := os2, kv := kv1 })
    | (none, kv1) =>
      let (err, kv2) := UpdateVol kv1 v
      ((v.Id, err), { os := os2, kv := kv2 })

/-- `driver.Delete`. -/
def Delete {σ : Type} (sys : Sys σ) (s : State σ) (volumeID : String) :
    Option String × State σ :=
  match GetVol s.kv volumeID with
  | .error err => (some err, s)
  | .ok _ =>
    let os1 := sys.RemoveAll s.os (sys.Join sys.VolumeBase volumeID)
    match DeleteVol s.kv volumeID with
    | (some err, kv1) => (some err, { os := os1, kv := kv1 })
    | (none, kv1) => (none, { os := os1, kv := kv1 })

/-- `driver.Mount`.  `v.Spec.Format` dereferences the record's spec pointer. -/
def Mount {σ : Type} (sys : Sys σ) (s : State σ) (volumeID mountpath : String) :
    Ret (Option String) × State σ :=
  match GetVol s.kv volumeID with
  | .error err => (.ok (some err), s)
  | .ok v =>
    if v.AttachPath.length > 0 ∧ v.AttachPath.length > 0 then
      (.ok (some (errAlreadyMounted (v.AttachPath.headD ""))), s)
    else
      let os1 := (sys.Unmount s.os mountpath).2
      match v.Spec with
      | none => (.panic "invalid memory address or nil pointer dereference", { s with os := os1 })
      | some spec =>
        match sys.Mount os1 (sys.Join sys.VolumeBase volumeID) mountpath (runeString spec.Format) with
        | (some err, os2) => (.ok (some err), { s with os := os2 })
        | (none, os2) =>
          let v := if v.AttachPath = [] then { v with AttachPath := [""] } else v
          let v := { v with AttachPath := v.AttachPath.set 0 mountpath }
          let (err, kv1) := UpdateVol s.kv v
          (.ok err, { os := os2, kv := kv1 })

/-- `driver.Unmount`.  The `mountpath` argument is not read: the path that is
unmounted is the recorded one. -/
def Unmount {σ : Type} (sys : Sys σ) (s : State σ) (volumeID : String) (_mountpath : String) :
    Option String × State σ :=
  match GetVol s.kv volumeID with
  | .error err => (some err, s)
  | .ok v =>
    if v.AttachPath.length = 0 ∨ (v.AttachPath.headD "").length = 0 then
      (some (errNotMounted volumeID), s)
    else
      match sys.Unmount s.os (v.AttachPath.headD "") with
      | (some err, os1) => (some err, { s with os := os1 })
      | (none, os1) =>
        let v := { v with AttachPath := [] }
        let (err, kv1) := UpdateVol s.kv v
        (err, { os := os1, kv := kv1 })

/-- `driver.Set`. -/
def Set {σ : Type} (s : State σ) (volumeID : String) (locator : Option VolumeLocator)
    (spec : Option VolumeSpec) : Option String × State σ :=
  if spec.isSome then (some ErrNotSupported, s)
  else
    match GetVol s.kv volumeID with
    | .error err => (some err, s)
    | .ok v =>
      let v := if locator.isSome then { v with Locator := locator } else v
      let (err, kv1) := UpdateVol s.kv v
      (err, { s with kv := kv1 })

end vfs

/-! ## Protocol gateway (`api/server/volume.go`) -/

/-- Three-valued toggle of a set request (`api.VolumeActionParam`). -/
inductive VolumeActionParam where
  | VOLUME_ACTION_PARAM_NONE
  | VOLUME_ACTION_PARAM_OFF
  | VOLUME_ACTION_PARAM_ON
deriving DecidableEq, Repr

/-- Action record of a set request (`api.VolumeStateAction`). -/
structure VolumeStateAction where
  Attach : VolumeActionParam
  Mount : VolumeActionParam
  MountPath : String
deriving DecidableEq, Repr

/-- Body of `PUT /volumes/{id}` (`api.VolumeSetRequest`). -/
structure VolumeSetRequest where
  Locator : Option VolumeLocator
  Spec : Option VolumeSpec
  Action : Option VolumeStateAction
deriving DecidableEq, Repr

/-- Error carrier of a response body (`api.VolumeResponse`). -/
structure VolumeResponse where
  Error : String
deriving DecidableEq, Repr

/-- Body of the answer to a set request (`api.VolumeSetResponse`). -/
structure VolumeSetResponse where
  Volume : Option Volume
  VolumeResponse : Option VolumeResponse
deriving DecidableEq, Repr

/-- The methods of `volume.VolumeDriver` that the handlers below call, over a
driver state `δ`.  A method that returns a value and an error returns the pair. -/
structure VolumeDriver (δ : Type) where
  Set : δ → String → Option VolumeLocator → Option VolumeSpec → Ret (Option String) × δ
  Attach : δ → String → Ret (String × Option String) × δ
  Detach : δ → String → Ret (Option String) × δ
  Mount : δ → String → String → Ret (Option String) × δ
  Unmount : δ → String → String → Ret (Option String) × δ
  Inspect : δ → List String → Ret (List Volume × Option String) × δ
  Enumerate : δ → VolumeLocator → List (String × String) → Ret (List Volume × Option String) × δ
  SnapEnumerate : δ → List String → List (String × String) →
    Ret (List Volume × Option String) × δ

/-- What a handler wrote to the `http.ResponseWriter`, one item per write. -/
inductive Payload where
  | text (msg : String)
  | volumes (vols : List Volume)
  | setResponse (resp : VolumeSetResponse)
deriving DecidableEq, Repr

/-- An `http.ResponseWriter`: the status line, fixed by the first write, and
the writes in order. -/
structure ResponseWriter where
  status : Option Nat
  body : List Payload
deriving DecidableEq, Repr

/-- A fresh `http.ResponseWriter`. -/
def ResponseWriter.new : ResponseWriter := { status := none, body := [] }

/-- `http.StatusBadRequest`. -/
def StatusBadRequest : Nat := 400

/-- `http.StatusNotFound`. -/
def StatusNotFound : Nat := 404

/-- `http.StatusOK`, the status of a response whose first write is a body. -/
def StatusOK : Nat := 200

/-- Modelled from the spec: `restBase.sendError` (file `server.go` of package
`server`, outside the sources at hand): answers with a transport-level error
of the given status code carrying the message. -/
def sendError (w : ResponseWriter) (msg : String) (code : Nat) : ResponseWriter :=
  { status := some (w.status.getD code), body := w.body ++ [Payload.text msg] }

/-- Modelled from the spec: `notFound` (file `server.go` of package `server`,
outside the sources at hand): answers with the transport-level "not found". -/
def notFound (w : ResponseWriter) : ResponseWriter :=
  sendError w "404 page not found" StatusNotFound

/-- `json.NewEncoder(w).Encode(x)`: one write of the encoded value. -/
def Encode (w : ResponseWriter) (x : Payload) : ResponseWriter :=
  { status := some (w.status.getD StatusOK), body := w.body ++ [x] }

/-- An `http.Request` as a handler sees it: the outcome of decoding the body
as `β`, the route variables `mux.Vars(r)`, and the key/value pairs of the URL
query in order of appearance. -/
structure Request (β : Type) where
  body : Except String β
  vars : List (String × String)
  query : List (String × String)

/-- Keys of the map `r.URL.Query()`. -/
def queryKeys : List (String × String) → List String
  | [] => []
  | (k, _) :: r => if k ∈ queryKeys r then queryKeys r else k :: queryKeys r

/-- Go `len(params)` of the map `r.URL.Query()`: its number of keys. -/
def queryLen (q : List (String × String)) : Nat := (queryKeys q).length

/-- Go `params[key]` of the map `r.URL.Query()`: the values of the key in order
of appearance, or `none` (the `nil` slice) when the key is absent. -/
def queryGet (q : List (String × String)) (key : String) : Option (List String) :=
  match (q.filter (fun p => p.1 = key)).map (fun p => p.2) with
  | [] => none
  | v :: vs => some (v :: vs)

/-- Modelled from the spec: `api.OptName`, the `name` query filter (declared
in package `api`, outside the sources at hand). -/
def OptName : String := "name"

/-- Modelled from the spec: `api.OptLabel`, the `label` query filter (declared
in package `api`, outside the sources at hand). -/
def OptLabel : String := "label"

/-- Modelled from the spec: `api.OptConfigLabel`, the `configLabel` query filter
(declared in package `api`, outside the sources at hand). -/
def OptConfigLabel : String := "configLabel"

/-- Modelled from the spec: `api.OptVolumeID`, the repeated `volumeID` query
filter (declared in package `api`, outside the sources at hand). -/
def OptVolumeID : String := "volumeID"

/-- What a handler leaves behind: the response, the driver state, and the
panic that aborted it, if any. -/
structure Result (δ : Type) where
  w : ResponseWriter
  drv : δ
  panic : Option String

/-- `volApi.parseVolumeID`. -/
def parseVolumeID {β : Type} (r : Request β) : Except String String :=
  match r.vars.lookup "id" with
  | some id => .ok id
  | none => .error "could not parse snap ID"

/-- The loop `for i, s := range v { ids[i] = string(s) }` from index `i` on;
`none` is the index-out-of-range panic of the assignment. -/
def copyIds : List String → Nat → List String → Option (List String)
  | [], _, ids => some ids
  | s :: rest, i, ids => if i < ids.length then copyIds rest (i + 1) (ids.set i s) else none

/-- Go `make([]string, n)`. -/
def makeStrings (n : Nat) : List String := List.replicate n ""

/-- The block `for err == nil && req.Action != nil { ... break }` of
`volApi.volumeSet`, which runs its body at most once. -/
def volumeSetAction {δ : Type} (d : VolumeDriver δ) (s : δ) (volumeID : String)
    (err : Option String) (action : Option VolumeStateAction) : Ret (Option String) × δ :=
  match err, action with
  | none, some a =>
    let attached : Ret (Option String) × δ :=
      if a.Attach ≠ .VOLUME_ACTION_PARAM_NONE then
        if a.Attach = .VOLUME_ACTION_PARAM_ON then
          match d.Attach s volumeID with
          | (.ok (_, err), s1) => (.ok err, s1)
          | (.panic m, s1) => (.panic m, s1)
        else d.Detach s volumeID
      else (.ok none, s)
    match attached with
    | (.panic m, s1) => (.panic m, s1)
    | (.ok (some err), s1) => (.ok (some err), s1)
    | (.ok none, s1) =>
      if a.Mount ≠ .VOLUME_ACTION_PARAM_NONE then
        if a.Mount = .VOLUME_ACTION_PARAM_ON then
          if a.MountPath = "" then (.ok (some "Invalid mount path"), s1)
          else d.Mount s1 volumeID a.MountPath
        else d.Unmount s1 volumeID a.MountPath
      else (.ok none, s1)
  | err, _ => (.ok err, s)

/-- The closing block of `volApi.volumeSet`, from `if err != nil` on: the
error of the chain goes into the response body, or else the volume is
inspected and the record, or the error of that Inspect, goes there.  `x` is
the state of the handler after the chain; a panic of the chain ends the
handler before the block. -/
def volumeSetReply {δ : Type} (d : VolumeDriver δ) (volumeID : String)
    (x : Ret (Option String) × δ) : Result δ :=
  let w := ResponseWriter.new
  match x with
  | (.panic m, s2) => { w := w, drv := s2, panic := some m }
  | (.ok (some err), s2) =>
    { w := Encode w (.setResponse { Volume := none, VolumeResponse := some ⟨err⟩ }),
      drv := s2, panic := none }
  | (.ok none, s2) =>
    match d.Inspect s2 [volumeID] with
    | (.panic m, s3) => { w := w, drv := s3, panic := some m }
    | (.ok (v, err), s3) =>
      if err.isSome ∨ v.length ≠ 1 then
        let err := err.getD "Failed to inspect volume"
        { w := Encode w (.setResponse { Volume := none, VolumeResponse := some ⟨err⟩ }),
          drv := s3, panic := none }
      else
        { w := Encode w (.setResponse { Volume := v.head?, VolumeResponse := none }),
          drv := s3, panic := none }

/-- `volApi.volumeSet`; `drv` is the outcome of `volumedrivers.Get(vd.name)`. -/
def volumeSet {δ : Type} (drv : Option (VolumeDriver δ)) (s : δ)
    (r : Request VolumeSetRequest) : Result δ :=
  let w := ResponseWriter.new
  match r.body with
  | .error err => { w := sendError w err StatusBadRequest, drv := s, panic := none }
  | .ok req =>
    match parseVolumeID r with
    | .error err => { w := sendError w err StatusBadRequest, drv := s, panic := none }
    | .ok volumeID =>
      match drv with
      | none => { w := notFound w, drv := s, panic := none }
      | some d =>
        let set : Ret (Option String) × δ :=
          if req.Locator.isSome ∨ req.Spec.isSome then d.Set s volumeID req.Locator req.Spec
          else (.ok none, s)
        match set with
        | (.panic m, s1) => { w := w, drv := s1, panic := some m }
        | (.ok err, s1) =>
          volumeSetReply d volumeID (volumeSetAction d s1 volumeID err req.Action)

/-- The block `if v != nil { if err = json.Unmarshal([]byte(v[0]), &labels);
err != nil { vd.sendError(..., http.StatusBadRequest) } }`, which the handlers
`enumerate` and `snapEnumerate` run on a label filter of the query: the
decoded labels and the response writer after the block.  `unmarshal` is
`json.Unmarshal` into a label map, which returns what it decoded and its
error; `what` is the prefix of the message.  The handler goes on after the
block in either case. -/
def decodeLabels (unmarshal : String → List (String × String) × Option String)
    (w : ResponseWriter) (v : Option (List String)) (what : String) :
    List (String × String) × ResponseWriter :=
  match v with
  | some v =>
    match unmarshal (v.headD "") with
    | (labels, some err) => (labels, sendError w (what ++ err) StatusBadRequest)
    | (labels, none) => (labels, w)
  | none => ([], w)

/-- `volApi.enumerate`; `unmarshal` is `json.Unmarshal` into a label map; `drv`
is the outcome of `volumedrivers.Get(vd.name)`. -/
def enumerate {δ β : Type} (unmarshal : String → List (String × String) × Option String)
    (drv : Option (VolumeDriver δ)) (s : δ) (r : Request β) : Result δ :=
  let w := ResponseWriter.new
  match drv with
  | none => { w := notFound w, drv := s, panic := none }
  | some d =>
    let params := r.query
    let name : String :=
      match queryGet params OptName with
      | some v => v.headD ""
      | none => ""
    let labels := decodeLabels unmarshal w (queryGet params OptLabel)
      "Failed to parse parse VolumeLabels: "
    let locator : VolumeLocator := { Name := name, VolumeLabels := labels.1 }
    let configLabels := decodeLabels unmarshal labels.2 (queryGet params OptConfigLabel)
      "Failed to parse parse configLabels: "
    let w := configLabels.2
    match queryGet params OptVolumeID with
    | some v =>
      match copyIds v 0 (makeStrings v.length) with
      | none => { w := w, drv := s, panic := some "index out of range" }
      | some ids =>
        match d.Inspect s ids with
        | (.panic m, s1) => { w := w, drv := s1, panic := some m }
        | (.ok (_, some err), s1) =>
          { w := sendError w ("Failed to inspect volumeID: " ++ err) StatusBadRequest,
            drv := s1, panic := none }
        | (.ok (vols, none), s1) => { w := Encode w (.volumes vols), drv := s1, panic := none }
    | none =>
      match d.Enumerate s locator configLabels.1 with
      | (.panic m, s1) => { w := w, drv := s1, panic := some m }
      | (.ok (vols, _), s1) => { w := Encode w (.volumes vols), drv := s1, panic := none }

/-- `volApi.snapEnumerate`; `unmarshal` and `drv` are as in `enumerate`. -/
def snapEnumerate {δ β : Type} (unmarshal : String → List (String × String) × Option String)
    (drv : Option (VolumeDriver δ)) (s : δ) (r : Request β) : Result δ :=
  let w := ResponseWriter.new
  match drv with
  | none => { w := notFound w, drv := s, panic := none }
  | some d =>
    let params := r.query
    let labels := decodeLabels unmarshal w (queryGet params OptLabel)
      "Failed to parse parse VolumeLabels: "
    let w := labels.2
    let ids : Option (List String) :=
      match queryGet params OptVolumeID with
      | some v => copyIds v 0 (makeStrings (queryLen params))
      | none => some []
    match ids with
    | none => { w := w, drv := s, panic := some "index out of range" }
    | some ids =>
      match d.SnapEnumerate s ids labels.1 with
      | (.panic m, s1) => { w := w, drv := s1, panic := some m }
      | (.ok (_, some err), s1) =>
        { w := sendError w ("Failed to enumerate snaps: " ++ err) StatusBadRequest,
          drv := s1, panic := none }
      | (.ok (snaps, none), s1) => { w := Encode w (.volumes snaps), drv := s1, panic := none }

/-! ## Observing the driver calls of a handler -/

/-- A call of a driver method, with its arguments. -/
inductive Call where
  | Set (volumeID : String) (locator : Option VolumeLocator) (spec : Option VolumeSpec)
  | Attach (volumeID : String)
  | Detach (volumeID : String)
  | Mount (volumeID : String) (mountpath : String)
  | Unmount (volumeID : String) (mountpath : String)
  | Inspect (ids : List String)
  | Enumerate (locator : VolumeLocator) (configLabels : List (String × String))
  | SnapEnumerate (ids : List String) (labels : List (String × String))
deriving DecidableEq, Repr

/-- A driver call that was made, with the error it returned (or its panic). -/
structure Event where
  call : Call
  err : Ret (Option String)
deriving DecidableEq, Repr

/-- The error part of a method outcome that carries a value as well. -/
def errOf {α : Type} : Ret (α × Option String) → Ret (Option String)
  | .ok (_, err) => .ok err
  | .panic m => .panic m

/-- The driver `d` with a journal: every method behaves as in `d` and appends
the call and its error to the journal kept beside the driver state. -/
def logged {δ : Type} (d : VolumeDriver δ) : VolumeDriver (δ × List Event) where
  Set := fun s id l sp =>
    let r := d.Set s.1 id l sp
    (r.1, (r.2, s.2 ++ [⟨.Set id l sp, r.1⟩]))
  Attach := fun s id =>
    let r := d.Attach s.1 id
    (r.1, (r.2, s.2 ++ [⟨.Attach id, errOf r.1⟩]))
  Detach := fun s id =>
    let r := d.Detach s.1 id
    (r.1, (r.2, s.2 ++ [⟨.Detach id, r.1⟩]))
  Mount := fun s id p =>
    let r := d.Mount s.1 id p
    (r.1, (r.2, s.2 ++ [⟨.Mount id p, r.1⟩]))
  Unmount := fun s id p =>
    let r := d.Unmount s.1 id p
    (r.1, (r.2, s.2 ++ [⟨.Unmount id p, r.1⟩]))
  Inspect := fun s ids =>
    let r := d.Inspect s.1 ids
    (r.1, (r.2, s.2 ++ [⟨.Inspect ids, errOf r.1⟩]))
  Enumerate := fun s l c =>
    let r := d.Enumerate s.1 l c
    (r.1, (r.2, s.2 ++ [⟨.Enumerate l c, errOf r.1⟩]))
  SnapEnumerate := fun s ids l =>
    let r := d.SnapEnumerate s.1 ids l
    (r.1, (r.2, s.2 ++ [⟨.SnapEnumerate ids l, errOf r.1⟩]))

/-- Whether a call is one of the mutating steps of a compound update. -/
def Call.isMutation : Call → Bool
  | .Set _ _ _ => true
  | .Attach _ => true
  | .Detach _ => true
  | .Mount _ _ => true
  | .Unmount _ _ => true
  | _ => false

/-- The Set call a set request asks for: one when a locator or a spec is
present. -/
def setCalls (volumeID : String) (req : VolumeSetRequest) : List Call :=
  if req.Locator.isSome ∨ req.Spec.isSome then [Call.Set volumeID req.Locator req.Spec] else []

/-- The Attach or Detach call an action asks for: none when the attach toggle
is NONE, Attach when it is ON, Detach when it is OFF. -/
def attachCalls (volumeID : String) (a : VolumeStateAction) : List Call :=
  match a.Attach with
  | .VOLUME_ACTION_PARAM_NONE => []
  | .VOLUME_ACTION_PARAM_ON => [Call.Attach volumeID]
  | .VOLUME_ACTION_PARAM_OFF => [Call.Detach volumeID]

/-- The Mount or Unmount call an action asks for: none when the mount toggle
is NONE, Mount when it is ON, Unmount when it is OFF. -/
def mountCalls (volumeID : String) (a : VolumeStateAction) : List Call :=
  match a.Mount with
  | .VOLUME_ACTION_PARAM_NONE => []
  | .VOLUME_ACTION_PARAM_ON => [Call.Mount volumeID a.MountPath]
  | .VOLUME_ACTION_PARAM_OFF => [Call.Unmount volumeID a.MountPath]

/-- The driver calls a set request asks for, in the order of the chain: Set,
then Attach or Detach, then Mount or Unmount. -/
def requestedCalls (volumeID : String) (req : VolumeSetRequest) : List Call :=
  setCalls volumeID req
  ++ (match req.Action with
      | none => []
      | some a => attachCalls volumeID a ++ mountCalls volumeID a)

/-- A journal of mutating calls that all returned without error and are,
in order, the calls `pre`. -/
def Succeeded (j : List Event) (pre : List Call) : Prop :=
  j.map (fun e => e.call) = pre ∧ ∀ e ∈ j, e.call.isMutation = true ∧ e.err = .ok none

/-- A journal that is a fail-fast run over `calls` ending in `r`: it holds
mutating calls only, they are an initial segment of `calls`, every call but
the last returned without error, and a call that did not return without
error gave the outcome `r`. -/
def FailFast (j : List Event) (calls : List Call) (r : Ret (Option String)) : Prop :=
  (∀ e ∈ j, e.call.isMutation = true)
  ∧ j.map (fun e => e.call) <+: calls
  ∧ (∀ e ∈ j.dropLast, e.err = .ok none)
  ∧ (∀ e ∈ j, e.err ≠ .ok none → r = e.err)

/-- The answer of the gateway that consists of the driver's Inspect over the
given ids and of nothing else: the records when Inspect succeeds, a bad
request carrying its error when it fails. -/
def inspectAnswer {δ : Type} (d : VolumeDriver δ) (s : δ) (ids : List String) : Result δ :=
  match d.Inspect s ids with
  | (.panic m, s1) => { w := ResponseWriter.new, drv := s1, panic := some m }
  | (.ok (_, some err), s1) =>
    { w := sendError ResponseWriter.new ("Failed to inspect volumeID: " ++ err) StatusBadRequest,
      drv := s1, panic := none }
  | (.ok (vols, none), s1) =>
    { w := Encode ResponseWriter.new (.volumes vols), drv := s1, panic := none }

/-- Whether the value of a query key, when the key is present, decodes as a
label map. -/
def parses (unmarshal : String → List (String × String) × Option String)
    (q : List (String × String)) (key : String) : Prop :=
  ∀ v, queryGet q key = some v → (unmarshal (v.headD "")).2 = none

/-! ## The vfs driver behind the gateway -/

/-- The vfs driver as the gateway sees it.  Modelled from the spec: the Block
and Snapshot groups are the stand-ins `common.BlockNotSupported` and
`common.SnapshotNotSupported` (package `common`, outside the sources at hand),
whose calls return `NotSupported`; `Inspect` is the store enumerator's; its
`Enumerate`, a listing by name and labels, is the parameter `enum`. -/
def vfs.driver {σ : Type} (sys : Sys σ)
    (enum : Store → VolumeLocator → List (String × String) → List Volume × Option String) :
    VolumeDriver (State σ) where
  Set := fun s id l sp => let r := vfs.Set s id l sp; (.ok r.1, r.2)
  Attach := fun s _ => (.ok ("", some ErrNotSupported), s)
  Detach := fun s _ => (.ok (some ErrNotSupported), s)
  Mount := fun s id p => vfs.Mount sys s id p
  Unmount := fun s id p => let r := vfs.Unmount sys s id p; (.ok r.1, r.2)
  Inspect := fun s ids => (.ok (Inspect s.kv ids), s)
  Enumerate := fun s l c => (.ok (enum s.kv l c), s)
  SnapEnumerate := fun s _ _ => (.ok ([], some ErrNotSupported), s)

/-! ## Sample environments -/

namespace Sample

/-- An environment whose primitives succeed, except that Mount, as `mount(2)`
does, refuses an empty target; the next uuid is `u1`. -/
def sys : Sys Unit where
  VolumeBase := "/var/lib/osd"
  Join := fun a b => a ++ "/" ++ b
  uuidNew := fun _ => ("u1\n", ())
  MkdirAll := fun _ _ => (none, ())
  RemoveAll := fun _ _ => ()
  Mount := fun _ _ target _ =>
    if target = "" then (some "no such file or directory", ()) else (none, ())
  Unmount := fun _ _ => (none, ())

/-- An environment whose mount and unmount primitives fail with `EPERM`. -/
def failing : Sys Unit where
  VolumeBase := "/var/lib/osd"
  Join := fun a b => a ++ "/" ++ b
  uuidNew := fun _ => ("u1\n", ())
  MkdirAll := fun _ _ => (none, ())
  RemoveAll := fun _ _ => ()
  Mount := fun _ _ _ _ => (some "operation not permitted", ())
  Unmount := fun _ _ => (some "operation not permitted", ())

/-- A spec: one GiB, ext4. -/
def spec : VolumeSpec := { Size := 1073741824, Format := 2, VolumeLabels := [] }

/-- A locator named `v1`. -/
def locator : VolumeLocator := { Name := "v1", VolumeLabels := [] }

/-- A locator named `v2`. -/
def renamed : VolumeLocator := { Name := "v2", VolumeLabels := [] }

/-- An unmounted volume `x` with a spec. -/
def vol : Volume := NewVolume "x" FS_TYPE_VFS (some locator) none (some spec)

/-- The volume `x` mounted at `/mnt/a`. -/
def mounted : Volume := { vol with AttachPath := ["/mnt/a"] }

/-- An unmounted volume `y` created without a spec. -/
def bare : Volume := NewVolume "y" FS_TYPE_VFS none none none

/-- A store that holds `x` unmounted and `y`. -/
def store : Store := [vol, bare]

/-- A store that holds `x` mounted at `/mnt/a`. -/
def storeMounted : Store := [mounted]

/-- A spec of two GiB. -/
def resized : VolumeSpec := { Size := 2147483648, Format := 2, VolumeLabels := [] }

/-- `PUT /volumes/x` that renames the volume and turns attach on. -/
def renameAttach : Request VolumeSetRequest where
  body := .ok { Locator := some renamed, Spec := none,
                Action := some ⟨.VOLUME_ACTION_PARAM_ON, .VOLUME_ACTION_PARAM_NONE, ""⟩ }
  vars := [("id", "x")]
  query := []

/-- `PUT /volumes/x` that renames the volume, changes its spec and turns
attach on. -/
def respecAttach : Request VolumeSetRequest where
  body := .ok { Locator := some renamed, Spec := some resized,
                Action := some ⟨.VOLUME_ACTION_PARAM_ON, .VOLUME_ACTION_PARAM_NONE, ""⟩ }
  vars := [("id", "x")]
  query := []

/-- A label decoder that accepts `{}` only. -/
def unmarshal (text : String) : List (String × String) × Option String :=
  if text = "\x7b\x7d" then ([], none) else ([], some "unexpected end of JSON input")

/-- A listing that returns every record. -/
def enum (kv : Store) (_ : VolumeLocator) (_ : List (String × String)) :
    List Volume × Option String :=
  (kv, none)

end Sample

/-! ## Store lemmas -/

theorem Store.get_id {kv : Store} {id : String} {v : Volume} (h : kv.get id = some v) :
    v.Id = id := by
  induction kv with
  | nil => simp [Store.get] at h
  | cons w r ih =>
    by_cases hw : w.Id = id
    · simp [Store.get, hw] at h
      subst h
      exact hw
    · simp [Store.get, hw] at h
      exact ih h

theorem Store.get_put_same (kv : Store) (v : Volume) : (kv.put v).get v.Id = some v := by
  induction kv with
  | nil => simp [Store.put, Store.get]
  | cons w r ih =>
    by_cases h : w.Id = v.Id
    · simp [Store.put, Store.get, h]
    · simp [Store.put, Store.get, h, ih]

theorem Store.get_put_other (kv : Store) (v : Volume) (other : String) (h : other ≠ v.Id) :
    (kv.put v).get other = kv.get other := by
  induction kv with
  | nil => simp [Store.put, Store.get, Ne.symm h]
  | cons w r ih =>
    by_cases hk : w.Id = v.Id
    · simp [Store.put, Store.get, hk, Ne.symm h]
    · by_cases ho : w.Id = other
      · simp [Store.put, Store.get, hk, ho, h]
      · simp [Store.put, Store.get, hk, ho, ih]

theorem Store.get_del_same (kv : Store) (id : String) : (kv.del id).get id = none := by
  induction kv with
  | nil => simp [Store.del, Store.get]
  | cons w r ih =>
    by_cases h : w.Id = id
    · simp [Store.del, h, ih]
    · simp [Store.del, Store.get, h, ih]

theorem Store.get_del_other (kv : Store) (id other : String) (h : other ≠ id) :
    (kv.del id).get other = kv.get other := by
  induction kv with
  | nil => simp [Store.del, Store.get]
  | cons w r ih =>
    by_cases hk : w.Id = id
    · have ho : ¬ w.Id = other := fun e => h (e ▸ hk)
      simp [Store.del, Store.get, hk, Ne.symm h, ih]
    · by_cases ho : w.Id = other
      · simp [Store.del, Store.get, hk, ho, h]
      · simp [Store.del, Store.get, hk, ho, ih]

theorem String.length_ne_zero_of_ne_empty {a : String} (h : a ≠ "") : a.length ≠ 0 := by
  intro h0
  apply h
  cases a with
  | mk data =>
    have hd : data = [] := List.length_eq_zero.mp h0
    subst hd
    rfl

theorem GetVol_of_get {kv : Store} {id : String} {v : Volume} (h : kv.get id = some v) :
    GetVol kv id = .ok v := by
  simp [GetVol, h]

theorem GetVol_of_get_none {kv : Store} {id : String} (h : kv.get id = none) :
    GetVol kv id = .error ErrNotFound := by
  simp [GetVol, h]

/-! ## The vfs driver: Mount on a mounted volume -/

/-- C1: on a volume whose record has a non-empty attach path list, Mount returns
an error for every path and leaves the state, the metadata store included, as
it was, so the record still holds its original attach list. -/
theorem Mount_conflict {σ : Type} (sys : Sys σ) (s : State σ) (volumeID mountpath : String)
    (v : Volume) (hv : s.kv.get volumeID = some v) (hne : v.AttachPath ≠ []) :
    vfs.Mount sys s volumeID mountpath
        = (.ok (some (vfs.errAlreadyMounted (v.AttachPath.headD ""))), s)
      ∧ (vfs.Mount sys s volumeID mountpath).2.kv.get volumeID = some v := by
  have hlen : 0 < v.AttachPath.length := List.length_pos.mpr hne
  have h : vfs.Mount sys s volumeID mountpath
      = (.ok (some (vfs.errAlreadyMounted (v.AttachPath.headD ""))), s) := by
    simp [vfs.Mount, GetVol_of_get hv, hlen]
  exact ⟨h, by rw [h]; exact hv⟩


/-- Witness of C1: the volume `x` mounted at `/mnt/a` refuses a mount at `/mnt/b`. -/
theorem Mount_conflict_witness :
    Sample.storeMounted.get "x" = some Sample.mounted ∧ Sample.mounted.AttachPath ≠ [] ∧
    (vfs.Mount Sample.sys ⟨(), Sample.storeMounted⟩ "x" "/mnt/b"
        = (.ok (some (vfs.errAlreadyMounted (Sample.mounted.AttachPath.headD ""))),
            ⟨(), Sample.storeMounted⟩)
      ∧ (vfs.Mount Sample.sys ⟨(), Sample.storeMounted⟩ "x" "/mnt/b").2.kv.get "x"
        = some Sample.mounted) :=
  ⟨by decide, by decide,
    Mount_conflict Sample.sys ⟨(), Sample.storeMounted⟩ "x" "/mnt/b" Sample.mounted
      (by decide) (by decide)⟩


/-! ## The vfs driver: failure of the OS primitive -/

/-- C9: for an existing volume, when the bind-mount made by Mount fails, Mount
returns that error and the metadata store is as before; when the unmount made
by Unmount fails, Unmount returns that error and the metadata store is as
before. -/
theorem primitive_failure_keeps_store {σ : Type} (sys : Sys σ) (s : State σ)
    (volumeID mountpath : String) (v : Volume) (err : String)
    (hv : s.kv.get volumeID = some v) :
    (∀ spec, v.AttachPath = [] → v.Spec = some spec →
        (sys.Mount (sys.Unmount s.os mountpath).2 (sys.Join sys.VolumeBase volumeID) mountpath
          (runeString spec.Format)).1 = some err →
        (vfs.Mount sys s volumeID mountpath).1 = .ok (some err)
          ∧ (vfs.Mount sys s volumeID mountpath).2.kv = s.kv)
    ∧ (∀ attached rest, v.AttachPath = attached :: rest → attached ≠ "" →
        (sys.Unmount s.os attached).1 = some err →
        (vfs.Unmount sys s volumeID mountpath).1 = some err
          ∧ (vfs.Unmount sys s volumeID mountpath).2.kv = s.kv) := by
  refine ⟨?_, ?_⟩
  · intro spec hempty hspec hfail
    cases hm : sys.Mount (sys.Unmount s.os mountpath).2 (sys.Join sys.VolumeBase volumeID)
        mountpath (runeString spec.Format) with
    | mk e os2 =>
      rw [hm] at hfail
      simp only at hfail
      subst hfail
      simp [vfs.Mount, GetVol_of_get hv, hempty, hspec, hm]
  · intro attached rest hpath hne hfail
    cases hu : sys.Unmount s.os attached with
    | mk e os1 =>
      rw [hu] at hfail
      simp only at hfail
      subst hfail
      simp [vfs.Unmount, GetVol_of_get hv, hpath, String.length_ne_zero_of_ne_empty hne, hu]

/-- Witness of C9: with primitives that fail, Mount of the unmounted `x` and
Unmount of the mounted `x` return the primitive's error and keep the store. -/
theorem primitive_failure_keeps_store_witness :
    ((vfs.Mount Sample.failing ⟨(), Sample.store⟩ "x" "/mnt/a").1
        = .ok (some "operation not permitted")
      ∧ (vfs.Mount Sample.failing ⟨(), Sample.store⟩ "x" "/mnt/a").2.kv = Sample.store)
    ∧ ((vfs.Unmount Sample.failing ⟨(), Sample.storeMounted⟩ "x" "/mnt/a").1
        = some "operation not permitted"
      ∧ (vfs.Unmount Sample.failing ⟨(), Sample.storeMounted⟩ "x" "/mnt/a").2.kv
        = Sample.storeMounted) :=
  ⟨(primitive_failure_keeps_store Sample.failing ⟨(), Sample.store⟩ "x" "/mnt/a" Sample.vol
      "operation not permitted" (by decide)).1 Sample.spec (by decide) (by decide) (by decide),
   (primitive_failure_keeps_store Sample.failing ⟨(), Sample.storeMounted⟩ "x" "/mnt/a"
      Sample.mounted "operation not permitted" (by decide)).2 "/mnt/a" [] (by decide)
      (by decide) (by decide)⟩

/-! ## The vfs driver: Delete -/

/-- C4: Delete of an id without a record returns the not-found error and leaves
the state as it was; Delete of an id with a record succeeds, whatever the
record's attach list and whatever the removal of the backing directory does,
after which a lookup or an Inspect of the id fails with not-found and the
lookup of every other id gives what it gave before. -/
theorem Delete_removes_record {σ : Type} (sys : Sys σ) (s : State σ) (volumeID : String) :
    (s.kv.get volumeID = none → vfs.Delete sys s volumeID = (some ErrNotFound, s))
    ∧ (∀ v, s.kv.get volumeID = some v →
        (vfs.Delete sys s volumeID).1 = none
          ∧ GetVol (vfs.Delete sys s volumeID).2.kv volumeID = .error ErrNotFound
          ∧ Inspect (vfs.Delete sys s volumeID).2.kv [volumeID] = ([], some ErrNotFound)
          ∧ ∀ other, other ≠ volumeID →
              (vfs.Delete sys s volumeID).2.kv.get other = s.kv.get other) := by
  refine ⟨?_, ?_⟩
  · intro h
    simp [vfs.Delete, GetVol_of_get_none h]
  · intro v h
    have hd : vfs.Delete sys s volumeID
        = (none, { os := sys.RemoveAll s.os (sys.Join sys.VolumeBase volumeID),
                   kv := s.kv.del volumeID }) := by
      simp [vfs.Delete, GetVol_of_get h, DeleteVol, h]
    have hg : GetVol (s.kv.del volumeID) volumeID = .error ErrNotFound :=
      GetVol_of_get_none (Store.get_del_same s.kv volumeID)
    rw [hd]
    refine ⟨rfl, hg, ?_, ?_⟩
    · simp [Inspect, hg]
    · intro other hne
      exact Store.get_del_other s.kv volumeID other hne

/-- Witness of C4: Delete of the unknown `z` is refused, Delete of the mounted
`x` removes its record. -/
theorem Delete_removes_record_witness :
    vfs.Delete Sample.sys ⟨(), Sample.storeMounted⟩ "z" = (some ErrNotFound, ⟨(), Sample.storeMounted⟩)
    ∧ (vfs.Delete Sample.sys ⟨(), Sample.storeMounted⟩ "x").1 = none
    ∧ GetVol (vfs.Delete Sample.sys ⟨(), Sample.storeMounted⟩ "x").2.kv "x" = .error ErrNotFound :=
  ⟨(Delete_removes_record Sample.sys ⟨(), Sample.storeMounted⟩ "z").1 (by decide),
   ((Delete_removes_record Sample.sys ⟨(), Sample.storeMounted⟩ "x").2 Sample.mounted
      (by decide)).1,
   ((Delete_removes_record Sample.sys ⟨(), Sample.storeMounted⟩ "x").2 Sample.mounted
      (by decide)).2.1⟩


/-! ## The vfs driver: Create -/

/-- C3: for every locator, source and spec, Create succeeds when the backing
directory is created and the new id has no record yet, and whenever Create
succeeds, Inspect of the returned id yields exactly one record, which carries
the returned id, the given locator, source and spec, and an empty attach path
list. -/
theorem Create_then_Inspect {σ : Type} (sys : Sys σ) (s : State σ)
    (locator : Option VolumeLocator) (source : Option Source) (spec : Option VolumeSpec) :
    ((sys.MkdirAll (sys.uuidNew s.os).2
          (sys.Join sys.VolumeBase (TrimSuffix (sys.uuidNew s.os).1 "\n"))).1 = none →
        s.kv.get (TrimSuffix (sys.uuidNew s.os).1 "\n") = none →
        (vfs.Create sys s locator source spec).1
          = (TrimSuffix (sys.uuidNew s.os).1 "\n", none))
    ∧ ((vfs.Create sys s locator source spec).1.2 = none →
        ∃ v, Inspect (vfs.Create sys s locator source spec).2.kv
              [(vfs.Create sys s locator source spec).1.1] = ([v], none)
          ∧ v.Id = (vfs.Create sys s locator source spec).1.1
          ∧ v.Locator = locator ∧ v.Spec = spec ∧ v.Source = source ∧ v.AttachPath = []) := by
  cases hu : sys.uuidNew s.os with
  | mk u os1 =>
    cases hm : sys.MkdirAll os1 (sys.Join sys.VolumeBase (TrimSuffix u "\n")) with
    | mk e os2 =>
      cases e with
      | some e => simp [vfs.Create, hu, hm]
      | none =>
        cases hg : s.kv.get (TrimSuffix u "\n") with
        | some w => simp [vfs.Create, hu, hm, CreateVol, NewVolume, hg]
        | none =>
          have hput := Store.get_put_same
            ((s.kv.put { NewVolume (TrimSuffix u "\n") FS_TYPE_VFS locator source spec with
                DevicePath := sys.Join sys.VolumeBase (TrimSuffix u "\n") }))
            { NewVolume (TrimSuffix u "\n") FS_TYPE_VFS locator source spec with
                DevicePath := sys.Join sys.VolumeBase (TrimSuffix u "\n") }
          simp only [NewVolume] at hput
          simp [vfs.Create, hu, hm, CreateVol, UpdateVol, NewVolume, hg, Inspect, GetVol, hput]

/-- Witness of C3: Create on the sample store succeeds and Inspect of the new
id yields the record with the given locator and spec. -/
theorem Create_then_Inspect_witness :
    (vfs.Create Sample.sys ⟨(), Sample.store⟩ (some Sample.locator) none (some Sample.spec)).1
        = ("u1", none)
    ∧ ∃ v, Inspect
          (vfs.Create Sample.sys ⟨(), Sample.store⟩ (some Sample.locator) none
            (some Sample.spec)).2.kv
          [(vfs.Create Sample.sys ⟨(), Sample.store⟩ (some Sample.locator) none
            (some Sample.spec)).1.1] = ([v], none)
        ∧ v.Id = (vfs.Create Sample.sys ⟨(), Sample.store⟩ (some Sample.locator) none
            (some Sample.spec)).1.1
        ∧ v.Locator = some Sample.locator ∧ v.Spec = some Sample.spec ∧ v.Source = none
        ∧ v.AttachPath = [] :=
  ⟨(Create_then_Inspect Sample.sys ⟨(), Sample.store⟩ (some Sample.locator) none
      (some Sample.spec)).1 (by decide) (by decide),
   (Create_then_Inspect Sample.sys ⟨(), Sample.store⟩ (some Sample.locator) none
      (some Sample.spec)).2 (by decide)⟩


/-! ## The vfs driver: Mount followed by Unmount -/

/-- C2 fails on the code: a volume that Create stored without a spec exists
with an empty attach list, and Mount of it, at any path and whatever the
mount and unmount primitives answer, panics on `v.Spec.Format` before the
bind-mount is made and records nothing. -/
theorem Mount_without_spec_panics {σ : Type} (sys : Sys σ) (s : State σ)
    (locator : Option VolumeLocator) (source : Option Source) (mountpath : String)
    (hc : (vfs.Create sys s locator source none).1.2 = none) :
    (∃ v, (vfs.Create sys s locator source none).2.kv.get
            (vfs.Create sys s locator source none).1.1 = some v
        ∧ v.AttachPath = [] ∧ v.Spec = none)
    ∧ (vfs.Mount sys (vfs.Create sys s locator source none).2
          (vfs.Create sys s locator source none).1.1 mountpath).1
        = .panic "invalid memory address or nil pointer dereference"
    ∧ (vfs.Mount sys (vfs.Create sys s locator source none).2
          (vfs.Create sys s locator source none).1.1 mountpath).2.kv
        = (vfs.Create sys s locator source none).2.kv := by
  cases hu : sys.uuidNew s.os with
  | mk u os1 =>
    cases hm : sys.MkdirAll os1 (sys.Join sys.VolumeBase (TrimSuffix u "\n")) with
    | mk e os2 =>
      cases e with
      | some e => simp [vfs.Create, hu, hm] at hc
      | none =>
        cases hg : s.kv.get (TrimSuffix u "\n") with
        | some w => simp [vfs.Create, hu, hm, CreateVol, NewVolume, hg] at hc
        | none =>
          have hput := Store.get_put_same
            ((s.kv.put { NewVolume (TrimSuffix u "\n") FS_TYPE_VFS locator source none with
                DevicePath := sys.Join sys.VolumeBase (TrimSuffix u "\n") }))
            { NewVolume (TrimSuffix u "\n") FS_TYPE_VFS locator source none with
                DevicePath := sys.Join sys.VolumeBase (TrimSuffix u "\n") }
          simp only [NewVolume] at hput
          have hC : vfs.Create sys s locator source none
              = ((TrimSuffix u "\n", none),
                  { os := os2,
                    kv := Store.put (s.kv.put
                      { Id := TrimSuffix u "\n", Source := source, Locator := locator,
                        Spec := none, Format := FS_TYPE_VFS,
                        DevicePath := sys.Join sys.VolumeBase (TrimSuffix u "\n"),
                        AttachPath := [] })
                      { Id := TrimSuffix u "\n", Source := source, Locator := locator,
                        Spec := none, Format := FS_TYPE_VFS,
                        DevicePath := sys.Join sys.VolumeBase (TrimSuffix u "\n"),
                        AttachPath := [] } }) := by
            simp [vfs.Create, hu, hm, CreateVol, UpdateVol, NewVolume, hg]
          rw [hC]
          refine ⟨⟨_, hput, rfl, rfl⟩, ?_, ?_⟩
          · simp [vfs.Mount, GetVol_of_get hput]
          · simp [vfs.Mount, GetVol_of_get hput]

/-- Witness of C2's failure: Create without a spec on the sample store, then
Mount of the new volume at `/mnt/a`. -/
theorem Mount_without_spec_panics_witness :
    (vfs.Create Sample.sys ⟨(), Sample.store⟩ (some Sample.locator) none none).1 = ("u1", none)
    ∧ (vfs.Mount Sample.sys
          (vfs.Create Sample.sys ⟨(), Sample.store⟩ (some Sample.locator) none none).2
          (vfs.Create Sample.sys ⟨(), Sample.store⟩ (some Sample.locator) none none).1.1
          "/mnt/a").1
        = .panic "invalid memory address or nil pointer dereference" :=
  ⟨by decide,
   (Mount_without_spec_panics Sample.sys ⟨(), Sample.store⟩ (some Sample.locator) none "/mnt/a"
      (by decide)).2.1⟩

/-- Mount followed by Unmount on a record that has a spec, under an operating
system that, as `mount(2)` does, refuses an empty mount target: for every
path, if the bind-mount made by Mount and the unmount made by Unmount
succeed, then Mount succeeds and records the path, the Unmount that follows
succeeds and leaves the attach list empty, and a further Unmount fails with
the not-mounted error and changes nothing. -/
theorem Mount_then_Unmount {σ : Type} (sys : Sys σ) (s : State σ) (volumeID mountpath : String)
    (v : Volume) (spec : VolumeSpec)
    (hos : ∀ o source fstype, (sys.Mount o source "" fstype).1 ≠ none)
    (hv : s.kv.get volumeID = some v) (hempty : v.AttachPath = []) (hspec : v.Spec = some spec)
    (hmount : (sys.Mount (sys.Unmount s.os mountpath).2 (sys.Join sys.VolumeBase volumeID)
        mountpath (runeString spec.Format)).1 = none)
    (hunmount : (sys.Unmount (sys.Mount (sys.Unmount s.os mountpath).2
        (sys.Join sys.VolumeBase volumeID) mountpath (runeString spec.Format)).2 mountpath).1
        = none) :
    (vfs.Mount sys s volumeID mountpath).1 = .ok none
    ∧ (vfs.Mount sys s volumeID mountpath).2.kv.get volumeID
        = some { v with AttachPath := [mountpath] }
    ∧ (vfs.Unmount sys (vfs.Mount sys s volumeID mountpath).2 volumeID mountpath).1 = none
    ∧ (vfs.Unmount sys (vfs.Mount sys s volumeID mountpath).2 volumeID mountpath).2.kv.get
        volumeID = some { v with AttachPath := [] }
    ∧ vfs.Unmount sys (vfs.Unmount sys (vfs.Mount sys s volumeID mountpath).2 volumeID
          mountpath).2 volumeID mountpath
        = (some (vfs.errNotMounted volumeID),
            (vfs.Unmount sys (vfs.Mount sys s volumeID mountpath).2 volumeID mountpath).2) := by
  have hid : v.Id = volumeID := Store.get_id hv
  have hpath : mountpath ≠ "" := by
    intro h
    subst h
    exact hos _ _ _ hmount
  cases hm : sys.Mount (sys.Unmount s.os mountpath).2 (sys.Join sys.VolumeBase volumeID)
      mountpath (runeString spec.Format) with
  | mk e os2 =>
    rw [hm] at hmount hunmount
    simp only at hmount hunmount
    subst hmount
    cases hu : sys.Unmount os2 mountpath with
    | mk e1 os3 =>
      rw [hu] at hunmount
      simp only at hunmount
      subst hunmount
      have hM : vfs.Mount sys s volumeID mountpath
          = (.ok none, { os := os2, kv := s.kv.put { v with AttachPath := [mountpath] } }) := by
        simp [vfs.Mount, GetVol_of_get hv, hempty, hspec, hm, UpdateVol]
      have hg1 : (s.kv.put { v with AttachPath := [mountpath] }).get volumeID
          = some { v with AttachPath := [mountpath] } := by
        have h := Store.get_put_same s.kv { v with AttachPath := [mountpath] }
        simpa [hid] using h
      have hU : vfs.Unmount sys { os := os2, kv := s.kv.put { v with AttachPath := [mountpath] } }
            volumeID mountpath
          = (none, ⟨os3, Store.put (s.kv.put { v with AttachPath := [mountpath] })
                { v with AttachPath := [] }⟩) := by
        simp [vfs.Unmount, GetVol_of_get hg1, String.length_ne_zero_of_ne_empty hpath, hu,
          UpdateVol]
      have hg2 : ((s.kv.put { v with AttachPath := [mountpath] }).put
            { v with AttachPath := [] }).get volumeID = some { v with AttachPath := [] } := by
        have h := Store.get_put_same (s.kv.put { v with AttachPath := [mountpath] })
          { v with AttachPath := [] }
        simpa [hid] using h
      rw [hM]
      refine ⟨rfl, hg1, ?_, ?_, ?_⟩
      · rw [hU]
      · rw [hU]; exact hg2
      · rw [hU]
        simp [vfs.Unmount, GetVol_of_get hg2]

/-- The unmounted `x`, which has a spec, mounted at `/mnt/a` and unmounted
again. -/
theorem Mount_then_Unmount_sample :
    (vfs.Mount Sample.sys ⟨(), Sample.store⟩ "x" "/mnt/a").1 = .ok none
    ∧ (vfs.Mount Sample.sys ⟨(), Sample.store⟩ "x" "/mnt/a").2.kv.get "x"
        = some { Sample.vol with AttachPath := ["/mnt/a"] }
    ∧ (vfs.Unmount Sample.sys (vfs.Mount Sample.sys ⟨(), Sample.store⟩ "x" "/mnt/a").2 "x"
        "/mnt/a").1 = none
    ∧ (vfs.Unmount Sample.sys (vfs.Mount Sample.sys ⟨(), Sample.store⟩ "x" "/mnt/a").2 "x"
        "/mnt/a").2.kv.get "x" = some { Sample.vol with AttachPath := [] }
    ∧ vfs.Unmount Sample.sys (vfs.Unmount Sample.sys
          (vfs.Mount Sample.sys ⟨(), Sample.store⟩ "x" "/mnt/a").2 "x" "/mnt/a").2 "x" "/mnt/a"
        = (some (vfs.errNotMounted "x"),
            (vfs.Unmount Sample.sys (vfs.Mount Sample.sys ⟨(), Sample.store⟩ "x" "/mnt/a").2 "x"
              "/mnt/a").2) :=
  Mount_then_Unmount Sample.sys ⟨(), Sample.store⟩ "x" "/mnt/a" Sample.vol Sample.spec
    (by intro o source fstype; simp [Sample.sys])
    (by decide) (by decide) (by decide) (by decide) (by decide)


/-! ## The gateway: id filters -/

theorem copyIds_append (rest front : List String) (tail : List String)
    (h : tail.length = rest.length) :
    copyIds rest front.length (front ++ tail) = some (front ++ rest) := by
  induction rest generalizing front tail with
  | nil =>
    have ht : tail = [] := List.length_eq_zero.mp h
    simp [copyIds, ht]
  | cons x xs ih =>
    cases tail with
    | nil => simp at h
    | cons t ts =>
      have hlen : ts.length = xs.length := by simpa using h
      have hstep := ih (front ++ [x]) ts hlen
      simp only [List.length_append, List.length_singleton, List.append_assoc,
        List.singleton_append] at hstep
      simp [copyIds, hstep]

theorem copyIds_make (v : List String) : copyIds v 0 (makeStrings v.length) = some v := by
  have h := copyIds_append v [] (makeStrings v.length) (by simp [makeStrings])
  simpa using h

theorem decodeLabels_of_parses (unmarshal : String → List (String × String) × Option String)
    (w : ResponseWriter) (q : List (String × String)) (key what : String)
    (h : parses unmarshal q key) :
    (decodeLabels unmarshal w (queryGet q key) what).2 = w := by
  unfold decodeLabels
  cases hv : queryGet q key with
  | none => rfl
  | some v =>
    have h2 := h v hv
    rcases hu : unmarshal (v.headD "") with ⟨labels, e⟩
    rw [hu] at h2
    simp only at h2
    subst h2
    simp only [hu]

theorem decodeLabels_status (unmarshal : String → List (String × String) × Option String)
    (w : ResponseWriter) (v : Option (List String)) (what : String) (code : Nat)
    (h : w.status = some code) :
    (decodeLabels unmarshal w v what).2.status = some code := by
  unfold decodeLabels
  cases v with
  | none => exact h
  | some v =>
    rcases hu : unmarshal (v.headD "") with ⟨labels, e⟩
    cases e with
    | none => simp only [hu]; exact h
    | some e => simp only [hu, sendError, h]; rfl

theorem decodeLabels_failure (unmarshal : String → List (String × String) × Option String)
    (v : List String) (what : String) (labels : List (String × String)) (err : String)
    (hu : unmarshal (v.headD "") = (labels, some err)) :
    decodeLabels unmarshal ResponseWriter.new (some v) what
      = (labels, sendError ResponseWriter.new (what ++ err) StatusBadRequest) := by
  simp only [decodeLabels, hu]

/-- C10 fails on the code: with two `volumeID` values and no other key the id
slice of snapEnumerate has the length of the query map, one, and the second
assignment panics before the driver is called; with one `volumeID` value
beside a `label` key the driver receives the id followed by an empty entry,
where the enumerate handler passes the id alone. -/
theorem snapEnumerate_id_filter {δ : Type} (d : VolumeDriver δ) (s : δ) :
    ((snapEnumerate Sample.unmarshal (some (logged d)) (s, [])
        (⟨Except.ok (), [], [("volumeID", "a"), ("volumeID", "b")]⟩ : Request Unit)).panic
        = some "index out of range"
      ∧ (snapEnumerate Sample.unmarshal (some (logged d)) (s, [])
        (⟨Except.ok (), [], [("volumeID", "a"), ("volumeID", "b")]⟩ : Request Unit)).drv
        = (s, []))
    ∧ ((snapEnumerate Sample.unmarshal (some (logged d)) (s, [])
        (⟨Except.ok (), [], [("volumeID", "a"), ("label", "\x7b\x7d")]⟩ : Request Unit)).drv.2.map
          (fun e => e.call) = [Call.SnapEnumerate ["a", ""] []]
      ∧ (enumerate Sample.unmarshal (some (logged d)) (s, [])
        (⟨Except.ok (), [], [("volumeID", "a"), ("label", "\x7b\x7d")]⟩ : Request Unit)).drv.2.map
          (fun e => e.call) = [Call.Inspect ["a"]]) := by
  refine ⟨⟨?_, ?_⟩, ?_, ?_⟩
  · simp [snapEnumerate, queryGet, queryLen, queryKeys, OptLabel, OptVolumeID, copyIds,
      makeStrings]
  · simp [snapEnumerate, queryGet, queryLen, queryKeys, OptLabel, OptVolumeID, copyIds,
      makeStrings]
  · simp [snapEnumerate, queryGet, queryLen, queryKeys, OptLabel, OptVolumeID, copyIds,
      makeStrings, Sample.unmarshal, logged, decodeLabels]
    rcases h : d.SnapEnumerate s ["a", ""] [] with ⟨r, s1⟩
    rcases r with ⟨vols, err⟩ | m
    · cases err <;> simp
    · simp
  · simp [enumerate, queryGet, OptName, OptLabel, OptConfigLabel, OptVolumeID, copyIds,
      makeStrings, Sample.unmarshal, logged, decodeLabels]
    rcases h : d.Inspect s ["a"] with ⟨r, s1⟩
    rcases r with ⟨vols, err⟩ | m
    · cases err <;> simp
    · simp

/-! ## The gateway: enumerate with an id filter -/

theorem enumerate_eq_inspectAnswer {δ β : Type}
    (unmarshal : String → List (String × String) × Option String) (d : VolumeDriver δ) (s : δ)
    (r : Request β) (ids : List String)
    (hq : queryGet r.query OptVolumeID = some ids)
    (hl : parses unmarshal r.query OptLabel) (hc : parses unmarshal r.query OptConfigLabel) :
    enumerate unmarshal (some d) s r = inspectAnswer d s ids := by
  unfold enumerate inspectAnswer
  simp only [hq, copyIds_make, decodeLabels_of_parses unmarshal _ r.query _ _ hl,
    decodeLabels_of_parses unmarshal _ r.query _ _ hc]

theorem journal_inspectAnswer {δ : Type} (d : VolumeDriver δ) (s : δ) (ids : List String) :
    (inspectAnswer (logged d) (s, []) ids).drv.2.map (fun e => e.call) = [Call.Inspect ids] := by
  unfold inspectAnswer
  rcases h : d.Inspect s ids with ⟨r, s1⟩
  rcases r with ⟨vols, err⟩ | m
  · cases err <;> simp [logged, h]
  · simp [logged, h]

/-- C7, as stated, fails: two requests with the same `volumeID` value get
different responses when one of them carries a `label` value that does not
decode, for which the handler writes a bad request before the records. -/
theorem enumerate_by_ids_counterexample :
    (enumerate Sample.unmarshal (some (vfs.driver Sample.sys Sample.enum)) ⟨(), Sample.store⟩
        (⟨Except.ok (), [], [("volumeID", "x"), ("label", "\x7b")]⟩ : Request Unit)).w
      ≠ (enumerate Sample.unmarshal (some (vfs.driver Sample.sys Sample.enum)) ⟨(), Sample.store⟩
        (⟨Except.ok (), [], [("volumeID", "x")]⟩ : Request Unit)).w
    ∧ (enumerate Sample.unmarshal (some (vfs.driver Sample.sys Sample.enum)) ⟨(), Sample.store⟩
        (⟨Except.ok (), [], [("volumeID", "x")]⟩ : Request Unit)).w
      = (inspectAnswer (vfs.driver Sample.sys Sample.enum) ⟨(), Sample.store⟩ ["x"]).w := by
  decide

/-- C7, amended: for every request that carries at least one `volumeID` value
and whose `label` and `configLabel` values, when supplied, decode as label
maps, the handler's outcome is exactly the one built from the driver's
Inspect over those ids in their order, the only driver call made is that
Inspect, and the outcome is the same for every other such request with the
same `volumeID` values, whatever its name, label and configLabel values. -/
theorem enumerate_by_ids {δ β : Type}
    (unmarshal : String → List (String × String) × Option String) (d : VolumeDriver δ) (s : δ)
    (r : Request β) (ids : List String)
    (hq : queryGet r.query OptVolumeID = some ids)
    (hl : parses unmarshal r.query OptLabel) (hc : parses unmarshal r.query OptConfigLabel) :
    enumerate unmarshal (some d) s r = inspectAnswer d s ids
    ∧ (enumerate unmarshal (some (logged d)) (s, []) r).drv.2.map (fun e => e.call)
        = [Call.Inspect ids]
    ∧ ∀ r2 : Request β, queryGet r2.query OptVolumeID = some ids →
        parses unmarshal r2.query OptLabel → parses unmarshal r2.query OptConfigLabel →
        enumerate unmarshal (some d) s r2 = enumerate unmarshal (some d) s r := by
  refine ⟨enumerate_eq_inspectAnswer unmarshal d s r ids hq hl hc, ?_, ?_⟩
  · rw [enumerate_eq_inspectAnswer unmarshal (logged d) (s, []) r ids hq hl hc]
    exact journal_inspectAnswer d s ids
  · intro r2 hq2 hl2 hc2
    rw [enumerate_eq_inspectAnswer unmarshal d s r ids hq hl hc,
      enumerate_eq_inspectAnswer unmarshal d s r2 ids hq2 hl2 hc2]

/-- Witness of C7, amended: an id filter beside a name filter and a label
filter that decodes. -/
theorem enumerate_by_ids_witness :
    enumerate Sample.unmarshal (some (vfs.driver Sample.sys Sample.enum)) ⟨(), Sample.store⟩
        (⟨Except.ok (), [], [("volumeID", "x"), ("name", "v9"), ("label", "\x7b\x7d")]⟩ : Request Unit)
      = inspectAnswer (vfs.driver Sample.sys Sample.enum) ⟨(), Sample.store⟩ ["x"]
    ∧ (enumerate Sample.unmarshal (some (logged (vfs.driver Sample.sys Sample.enum)))
        (⟨(), Sample.store⟩, [])
        (⟨Except.ok (), [], [("volumeID", "x"), ("name", "v9"), ("label", "\x7b\x7d")]⟩ :
          Request Unit)).drv.2.map (fun e => e.call) = [Call.Inspect ["x"]] :=
  have h := enumerate_by_ids Sample.unmarshal (vfs.driver Sample.sys Sample.enum)
    ⟨(), Sample.store⟩
    (⟨Except.ok (), [], [("volumeID", "x"), ("name", "v9"), ("label", "\x7b\x7d")]⟩ : Request Unit)
    ["x"] (by decide)
    (by
      intro v hv
      have hv2 : v = ["\x7b\x7d"] := by
        have h : queryGet [("volumeID", "x"), ("name", "v9"), ("label", "\x7b\x7d")] OptLabel
            = some ["\x7b\x7d"] := by decide
        exact Option.some.inj (hv.symm.trans h)
      subst hv2
      decide)
    (by
      intro v hv
      have h : queryGet [("volumeID", "x"), ("name", "v9"), ("label", "\x7b\x7d")] OptConfigLabel
          = none := by decide
      exact absurd (hv.symm.trans h) (by simp))
  ⟨h.1, h.2.1⟩

/-! ## The gateway: a filter that does not decode -/

/-- C8 fails on the code: when the `label` value of a request does not decode,
the enumerate handler answers bad request and still calls the driver; so
does the snapEnumerate handler, here for a request without `volumeID`. -/
theorem decode_failure_reaches_driver {δ β : Type}
    (unmarshal : String → List (String × String) × Option String) (d : VolumeDriver δ) (s : δ)
    (r : Request β) (v : List String) (labels : List (String × String)) (err : String)
    (hq : queryGet r.query OptLabel = some v)
    (hu : unmarshal (v.headD "") = (labels, some err)) :
    ((enumerate unmarshal (some (logged d)) (s, []) r).w.status = some StatusBadRequest
      ∧ (enumerate unmarshal (some (logged d)) (s, []) r).drv.2 ≠ [])
    ∧ (queryGet r.query OptVolumeID = none →
        (snapEnumerate unmarshal (some (logged d)) (s, []) r).w.status = some StatusBadRequest
        ∧ (snapEnumerate unmarshal (some (logged d)) (s, []) r).drv.2.map (fun e => e.call)
            = [Call.SnapEnumerate [] labels]) := by
  have hlab := decodeLabels_failure unmarshal v "Failed to parse parse VolumeLabels: " labels
    err hu
  have hst : (sendError ResponseWriter.new ("Failed to parse parse VolumeLabels: " ++ err)
      StatusBadRequest).status = some StatusBadRequest := rfl
  refine ⟨?_, ?_⟩
  · have hcfg := decodeLabels_status unmarshal _ (queryGet r.query OptConfigLabel)
      "Failed to parse parse configLabels: " StatusBadRequest hst
    unfold enumerate
    simp only [hq, hlab]
    generalize decodeLabels unmarshal _ (queryGet r.query OptConfigLabel) _ = cfg at hcfg ⊢
    cases h3 : queryGet r.query OptVolumeID with
    | none =>
      simp only []
      generalize hname : (match queryGet r.query OptName with
          | some v => v.headD ""
          | none => "") = name
      rcases h : d.Enumerate s { Name := name, VolumeLabels := labels } cfg.1 with ⟨res, s1⟩
      rcases res with ⟨vols, e⟩ | m <;> simp [logged, h, Encode, hcfg]
    | some ids =>
      simp only [copyIds_make]
      rcases h : d.Inspect s ids with ⟨res, s1⟩
      rcases res with ⟨vols, e⟩ | m
      · cases e <;> simp [logged, h, sendError, Encode, hcfg]
      · simp [logged, h, hcfg]
  · intro h3
    unfold snapEnumerate
    simp only [hq, hlab, h3]
    rcases h : d.SnapEnumerate s [] labels with ⟨res, s1⟩
    rcases res with ⟨vols, e⟩ | m
    · cases e <;> simp [logged, h, sendError, Encode, ResponseWriter.new]
    · simp [logged, h, sendError, ResponseWriter.new]

/-- Witness of C8's failure: `GET /volumes?label={` and `GET /snapshot?label={`
on the vfs driver. -/
theorem decode_failure_reaches_driver_witness :
    ((enumerate Sample.unmarshal (some (logged (vfs.driver Sample.sys Sample.enum)))
          (⟨(), Sample.store⟩, []) (⟨Except.ok (), [], [("label", "\x7b")]⟩ : Request Unit)).w.status
        = some StatusBadRequest
      ∧ (enumerate Sample.unmarshal (some (logged (vfs.driver Sample.sys Sample.enum)))
          (⟨(), Sample.store⟩, []) (⟨Except.ok (), [], [("label", "\x7b")]⟩ : Request Unit)).drv.2
        ≠ [])
    ∧ ((snapEnumerate Sample.unmarshal (some (logged (vfs.driver Sample.sys Sample.enum)))
          (⟨(), Sample.store⟩, []) (⟨Except.ok (), [], [("label", "\x7b")]⟩ : Request Unit)).w.status
          = some StatusBadRequest
        ∧ (snapEnumerate Sample.unmarshal (some (logged (vfs.driver Sample.sys Sample.enum)))
          (⟨(), Sample.store⟩, [])
          (⟨Except.ok (), [], [("label", "\x7b")]⟩ : Request Unit)).drv.2.map (fun e => e.call)
          = [Call.SnapEnumerate [] []]) :=
  have h := decode_failure_reaches_driver Sample.unmarshal (vfs.driver Sample.sys Sample.enum)
    ⟨(), Sample.store⟩ (⟨Except.ok (), [], [("label", "\x7b")]⟩ : Request Unit) ["\x7b"] []
    "unexpected end of JSON input" (by decide) (by decide)
  ⟨h.1, h.2 (by decide)⟩

/-! ## The gateway: the compound update -/

theorem Succeeded_nil : Succeeded [] [] := by
  simp [Succeeded]

theorem Succeeded_snoc {j : List Event} {pre : List Call} (h : Succeeded j pre) (c : Call)
    (hc : c.isMutation = true) : Succeeded (j ++ [⟨c, .ok none⟩]) (pre ++ [c]) := by
  obtain ⟨h1, h2⟩ := h
  refine ⟨by simp [h1], ?_⟩
  intro e he
  rcases List.mem_append.mp he with he | he
  · exact h2 e he
  · simp only [List.mem_singleton] at he
    subst he
    exact ⟨hc, rfl⟩

theorem FailFast_of_succeeded {j : List Event} {pre : List Call} (h : Succeeded j pre)
    (more : List Call) (r : Ret (Option String)) : FailFast j (pre ++ more) r := by
  obtain ⟨h1, h2⟩ := h
  refine ⟨fun e he => (h2 e he).1, ?_, ?_, ?_⟩
  · rw [h1]
    exact List.prefix_append pre more
  · intro e he
    exact (h2 e (List.dropLast_subset j he)).2
  · intro e he hne
    exact absurd (h2 e he).2 hne

theorem FailFast_snoc {j : List Event} {pre : List Call} (h : Succeeded j pre) (c : Call)
    (hc : c.isMutation = true) (more : List Call) (r : Ret (Option String)) :
    FailFast (j ++ [⟨c, r⟩]) (pre ++ c :: more) r := by
  obtain ⟨h1, h2⟩ := h
  refine ⟨?_, ?_, ?_, ?_⟩
  · intro e he
    rcases List.mem_append.mp he with he | he
    · exact (h2 e he).1
    · simp only [List.mem_singleton] at he
      subst he
      exact hc
  · simp only [List.map_append, List.map_cons, List.map_nil, h1]
    have : pre ++ c :: more = (pre ++ [c]) ++ more := by simp
    rw [this]
    exact List.prefix_append (pre ++ [c]) more
  · intro e he
    rw [List.dropLast_concat] at he
    exact (h2 e he).2
  · intro e he hne
    rcases List.mem_append.mp he with he | he
    · exact absurd (h2 e he).2 hne
    · simp only [List.mem_singleton] at he
      subst he
      rfl

theorem volumeSetAction_mount {δ : Type} (d : VolumeDriver δ) (s1 : δ) (j : List Event)
    (pre : List Call) (volumeID : String) (mnt : VolumeActionParam) (path : String)
    (h : Succeeded j pre) :
    j <+: (volumeSetAction (logged d) (s1, j) volumeID none
        (some ⟨.VOLUME_ACTION_PARAM_NONE, mnt, path⟩)).2.2
    ∧ FailFast
      (volumeSetAction (logged d) (s1, j) volumeID none
        (some ⟨.VOLUME_ACTION_PARAM_NONE, mnt, path⟩)).2.2
      (pre ++ mountCalls volumeID ⟨.VOLUME_ACTION_PARAM_NONE, mnt, path⟩)
      (volumeSetAction (logged d) (s1, j) volumeID none
        (some ⟨.VOLUME_ACTION_PARAM_NONE, mnt, path⟩)).1 := by
  cases mnt with
  | VOLUME_ACTION_PARAM_NONE =>
    have hf := FailFast_of_succeeded h [] (.ok none)
    simpa [volumeSetAction, mountCalls] using hf
  | VOLUME_ACTION_PARAM_OFF =>
    rcases hU : d.Unmount s1 volumeID path with ⟨rU, sU⟩
    have hf := FailFast_snoc h (Call.Unmount volumeID path) rfl [] rU
    simpa [volumeSetAction, mountCalls, logged, hU] using hf
  | VOLUME_ACTION_PARAM_ON =>
    by_cases hp : path = ""
    · have hf := FailFast_of_succeeded h [Call.Mount volumeID path]
        (.ok (some "Invalid mount path"))
      simpa [volumeSetAction, mountCalls, hp] using hf
    · rcases hM : d.Mount s1 volumeID path with ⟨rM, sM⟩
      have hf := FailFast_snoc h (Call.Mount volumeID path) rfl [] rM
      simpa [volumeSetAction, mountCalls, logged, hM, hp] using hf

theorem volumeSetAction_chain {δ : Type} (d : VolumeDriver δ) (s0 : δ) (j : List Event)
    (pre : List Call) (volumeID : String) (a : VolumeStateAction) (h : Succeeded j pre) :
    j <+: (volumeSetAction (logged d) (s0, j) volumeID none (some a)).2.2
    ∧ FailFast (volumeSetAction (logged d) (s0, j) volumeID none (some a)).2.2
      (pre ++ (attachCalls volumeID a ++ mountCalls volumeID a))
      (volumeSetAction (logged d) (s0, j) volumeID none (some a)).1 := by
  rcases a with ⟨att, mnt, path⟩
  cases att with
  | VOLUME_ACTION_PARAM_NONE =>
    have hm := volumeSetAction_mount d s0 j pre volumeID mnt path h
    simpa [attachCalls, mountCalls] using hm
  | VOLUME_ACTION_PARAM_OFF =>
    rcases hD : d.Detach s0 volumeID with ⟨rD, sD⟩
    rcases rD with (_ | e) | m
    · have hm := volumeSetAction_mount d sD (j ++ [⟨Call.Detach volumeID, .ok none⟩])
        (pre ++ [Call.Detach volumeID]) volumeID mnt path (Succeeded_snoc h (Call.Detach volumeID) rfl)
      have hpre : j <+: j ++ [(⟨Call.Detach volumeID, .ok none⟩ : Event)] :=
        List.prefix_append _ _
      refine ⟨?_, ?_⟩
      · have h1 := hpre.trans hm.1
        simpa [volumeSetAction, logged, hD, attachCalls, mountCalls] using h1
      · have h2 := hm.2
        simpa [volumeSetAction, logged, hD, attachCalls, mountCalls] using h2
    · have hf := FailFast_snoc h (Call.Detach volumeID) rfl
        (mountCalls volumeID ⟨.VOLUME_ACTION_PARAM_OFF, mnt, path⟩) (.ok (some e))
      simpa [volumeSetAction, logged, hD, attachCalls] using hf
    · have hf := FailFast_snoc h (Call.Detach volumeID) rfl
        (mountCalls volumeID ⟨.VOLUME_ACTION_PARAM_OFF, mnt, path⟩) (.panic m)
      simpa [volumeSetAction, logged, hD, attachCalls] using hf
  | VOLUME_ACTION_PARAM_ON =>
    rcases hA : d.Attach s0 volumeID with ⟨rA, sA⟩
    rcases rA with ⟨p, _ | e⟩ | m
    · have hm := volumeSetAction_mount d sA (j ++ [⟨Call.Attach volumeID, .ok none⟩])
        (pre ++ [Call.Attach volumeID]) volumeID mnt path (Succeeded_snoc h (Call.Attach volumeID) rfl)
      have hpre : j <+: j ++ [(⟨Call.Attach volumeID, .ok none⟩ : Event)] :=
        List.prefix_append _ _
      refine ⟨?_, ?_⟩
      · have h1 := hpre.trans hm.1
        simpa [volumeSetAction, logged, hA, attachCalls, mountCalls, errOf] using h1
      · have h2 := hm.2
        simpa [volumeSetAction, logged, hA, attachCalls, mountCalls, errOf] using h2
    · have hf := FailFast_snoc h (Call.Attach volumeID) rfl
        (mountCalls volumeID ⟨.VOLUME_ACTION_PARAM_ON, mnt, path⟩) (.ok (some e))
      simpa [volumeSetAction, logged, hA, attachCalls, errOf] using hf
    · have hf := FailFast_snoc h (Call.Attach volumeID) rfl
        (mountCalls volumeID ⟨.VOLUME_ACTION_PARAM_ON, mnt, path⟩) (.panic m)
      simpa [volumeSetAction, logged, hA, attachCalls, errOf] using hf

/-- The action block after a Set that returned no error, or after no Set. -/
theorem volumeSetAction_run {δ : Type} (d : VolumeDriver δ) (s0 : δ) (j : List Event)
    (pre : List Call) (volumeID : String) (action : Option VolumeStateAction)
    (h : Succeeded j pre) :
    j <+: (volumeSetAction (logged d) (s0, j) volumeID none action).2.2
    ∧ FailFast (volumeSetAction (logged d) (s0, j) volumeID none action).2.2
      (pre ++ (match action with
        | none => []
        | some a => attachCalls volumeID a ++ mountCalls volumeID a))
      (volumeSetAction (logged d) (s0, j) volumeID none action).1 := by
  cases action with
  | none =>
    have hf := FailFast_of_succeeded h [] (.ok none)
    simpa [volumeSetAction] using hf
  | some a => exact volumeSetAction_chain d s0 j pre volumeID a h


theorem volumeSetReply_journal {δ : Type} (d : VolumeDriver δ) (volumeID : String)
    (X : Ret (Option String) × δ × List Event) :
    (X.1 ≠ .ok none ∧ (volumeSetReply (logged d) volumeID X).drv.2 = X.2.2
        ∧ ∀ msg, X.1 = .ok (some msg) →
            (volumeSetReply (logged d) volumeID X).w = Encode ResponseWriter.new
              (.setResponse { Volume := none, VolumeResponse := some ⟨msg⟩ }))
      ∨ (X.1 = .ok none ∧ ∃ ev : Event, ev.call.isMutation = false
          ∧ (volumeSetReply (logged d) volumeID X).drv.2 = X.2.2 ++ [ev]) := by
  rcases X with ⟨(_ | e) | m, sX, jX⟩
  · right
    refine ⟨rfl, ?_⟩
    rcases hI : d.Inspect sX [volumeID] with ⟨rI, sI⟩
    rcases rI with ⟨v, e⟩ | m
    · refine ⟨⟨Call.Inspect [volumeID], .ok e⟩, rfl, ?_⟩
      simp only [volumeSetReply, logged, hI, errOf]
      split <;> rfl
    · refine ⟨⟨Call.Inspect [volumeID], .panic m⟩, rfl, ?_⟩
      simp only [volumeSetReply, logged, hI, errOf]
  · left
    simp [volumeSetReply]
  · left
    simp [volumeSetReply]

theorem volumeSet_run {δ : Type} (d : VolumeDriver δ) (s : δ) (r : Request VolumeSetRequest)
    (req : VolumeSetRequest) (volumeID : String)
    (hbody : r.body = .ok req) (hid : parseVolumeID r = .ok volumeID) :
    ∃ (J : List Event) (r0 : Ret (Option String)),
      FailFast J (requestedCalls volumeID req) r0
      ∧ (req.Locator.isSome ∨ req.Spec.isSome →
          J.head?.map (fun e => e.call) = some (Call.Set volumeID req.Locator req.Spec))
      ∧ ((r0 ≠ .ok none ∧ (volumeSet (some (logged d)) (s, []) r).drv.2 = J
            ∧ ∀ msg, r0 = .ok (some msg) →
                (volumeSet (some (logged d)) (s, []) r).w = Encode ResponseWriter.new
                  (.setResponse { Volume := none, VolumeResponse := some ⟨msg⟩ }))
          ∨ (r0 = .ok none ∧ ∃ ev : Event, ev.call.isMutation = false
              ∧ (volumeSet (some (logged d)) (s, []) r).drv.2 = J ++ [ev])) := by
  by_cases hls : req.Locator.isSome ∨ req.Spec.isSome
  · rcases hS : d.Set s volumeID req.Locator req.Spec with ⟨rS, sS⟩
    rcases rS with (_ | e) | m
    · have hj : Succeeded [⟨Call.Set volumeID req.Locator req.Spec, .ok none⟩]
          [Call.Set volumeID req.Locator req.Spec] := by
        simpa using Succeeded_snoc Succeeded_nil (Call.Set volumeID req.Locator req.Spec) rfl
      have hX := volumeSetAction_run d sS _ _ volumeID req.Action hj
      have hV : volumeSet (some (logged d)) (s, []) r
          = volumeSetReply (logged d) volumeID
              (volumeSetAction (logged d)
                (sS, [⟨Call.Set volumeID req.Locator req.Spec, .ok none⟩]) volumeID none
                req.Action) := by
        simp [volumeSet, hbody, hid, hls, logged, hS]
      rw [hV]
      refine ⟨_, _, ?_, ?_, volumeSetReply_journal d volumeID _⟩
      · simpa [requestedCalls, setCalls, hls] using hX.2
      · intro _
        obtain ⟨t, ht⟩ := hX.1
        rw [← ht]
        rfl
    · have hV : volumeSet (some (logged d)) (s, []) r
          = volumeSetReply (logged d) volumeID
              (.ok (some e), (sS, [⟨Call.Set volumeID req.Locator req.Spec, .ok (some e)⟩])) := by
        simp [volumeSet, hbody, hid, hls, logged, hS, volumeSetAction]
      rw [hV]
      refine ⟨_, _, ?_, ?_, volumeSetReply_journal d volumeID _⟩
      · have hf := FailFast_snoc Succeeded_nil (Call.Set volumeID req.Locator req.Spec) rfl
          (match req.Action with
            | none => []
            | some a => attachCalls volumeID a ++ mountCalls volumeID a) (.ok (some e))
        simpa [requestedCalls, setCalls, hls] using hf
      · intro _
        rfl
    · refine ⟨[⟨Call.Set volumeID req.Locator req.Spec, .panic m⟩], .panic m, ?_, ?_, ?_⟩
      · have hf := FailFast_snoc Succeeded_nil (Call.Set volumeID req.Locator req.Spec) rfl
          (match req.Action with
            | none => []
            | some a => attachCalls volumeID a ++ mountCalls volumeID a) (.panic m)
        simpa [requestedCalls, setCalls, hls] using hf
      · intro _
        rfl
      · left
        simp [volumeSet, hbody, hid, hls, logged, hS]
  · have hX := volumeSetAction_run d s [] [] volumeID req.Action Succeeded_nil
    have hV : volumeSet (some (logged d)) (s, []) r
        = volumeSetReply (logged d) volumeID
            (volumeSetAction (logged d) (s, []) volumeID none req.Action) := by
      simp [volumeSet, hbody, hid, hls]
    rw [hV]
    refine ⟨_, _, ?_, ?_, volumeSetReply_journal d volumeID _⟩
    · simpa [requestedCalls, setCalls, hls] using hX.2
    · intro h
      exact absurd h hls

/-- C5: in the volumeSet handler, for every decoded request with an id on a
resolved driver, the mutating driver calls made are an initial segment of the
chain Set (when a locator or spec is present), Attach or Detach (when the
attach toggle is not NONE), Mount or Unmount (when the mount toggle is not
NONE), with Set, when requested, as the first call of all; every such call
but the last one made returned without error; and when one of them returned
an error, no call of any kind follows it, and the response body carries
exactly that error. -/
theorem volumeSet_chain {δ : Type} (d : VolumeDriver δ) (s : δ) (r : Request VolumeSetRequest)
    (req : VolumeSetRequest) (volumeID : String)
    (hbody : r.body = .ok req) (hid : parseVolumeID r = .ok volumeID) :
    ((volumeSet (some (logged d)) (s, []) r).drv.2.filter (fun e => e.call.isMutation)).map
        (fun e => e.call) <+: requestedCalls volumeID req
    ∧ (req.Locator.isSome ∨ req.Spec.isSome →
        (volumeSet (some (logged d)) (s, []) r).drv.2.head?.map (fun e => e.call)
          = some (Call.Set volumeID req.Locator req.Spec))
    ∧ (∀ e ∈ ((volumeSet (some (logged d)) (s, []) r).drv.2.filter
          (fun e => e.call.isMutation)).dropLast, e.err = .ok none)
    ∧ (∀ e ∈ (volumeSet (some (logged d)) (s, []) r).drv.2, e.call.isMutation = true →
        ∀ msg, e.err = .ok (some msg) →
        (volumeSet (some (logged d)) (s, []) r).drv.2.getLast? = some e
          ∧ (volumeSet (some (logged d)) (s, []) r).w
            = Encode ResponseWriter.new
                (.setResponse { Volume := none, VolumeResponse := some ⟨msg⟩ })) := by
  obtain ⟨J, r0, ⟨hmut, hpre, hlast, herr⟩, hhead, hcase⟩ :=
    volumeSet_run d s r req volumeID hbody hid
  have hJ : J.filter (fun e => e.call.isMutation) = J := List.filter_eq_self.mpr hmut
  rcases hcase with ⟨hne, hj, hw⟩ | ⟨hr0, ev, hev, hj⟩
  · rw [hj, hJ]
    refine ⟨hpre, hhead, hlast, ?_⟩
    intro e he _ msg hmsg
    have hr := herr e he (by rw [hmsg]; simp)
    refine ⟨?_, hw msg (hr.trans hmsg)⟩
    rcases List.eq_nil_or_concat J with hnil | ⟨L, b, hL⟩
    · rw [hnil] at he
      simp at he
    · subst hL
      simp only [List.concat_eq_append] at hlast he ⊢
      rw [List.dropLast_concat] at hlast
      rcases List.mem_append.mp he with h | h
      · have := hlast e h
        rw [hmsg] at this
        exact absurd this (by simp)
      · simp only [List.mem_singleton] at h
        subst h
        simp
  · have hf : (J ++ [ev]).filter (fun e => e.call.isMutation) = J := by
      simp [List.filter_append, hJ, hev]
    rw [hj, hf]
    refine ⟨hpre, ?_, hlast, ?_⟩
    · intro h
      have hh := hhead h
      cases J with
      | nil => simp at hh
      | cons a t => simpa using hh
    · intro e he hm msg hmsg
      have heJ : e ∈ J := by
        rcases List.mem_append.mp he with h | h
        · exact h
        · simp only [List.mem_singleton] at h
          subst h
          rw [hev] at hm
          exact absurd hm (by simp)
      have hr := herr e heJ (by rw [hmsg]; simp)
      rw [hr0, hmsg] at hr
      exact absurd hr (by simp)



/-- Witness of C5: a request that renames `x` and turns attach on, on the vfs
driver, whose Attach is not supported. -/
theorem volumeSet_chain_witness :
    ((volumeSet (some (logged (vfs.driver Sample.sys Sample.enum))) (⟨(), Sample.store⟩, [])
        Sample.renameAttach).drv.2.filter (fun e => e.call.isMutation)).map (fun e => e.call)
      <+: requestedCalls "x"
        { Locator := some Sample.renamed, Spec := none,
          Action := some ⟨.VOLUME_ACTION_PARAM_ON, .VOLUME_ACTION_PARAM_NONE, ""⟩ }
    ∧ (volumeSet (some (logged (vfs.driver Sample.sys Sample.enum))) (⟨(), Sample.store⟩, [])
        Sample.renameAttach).drv.2.map (fun e => e.call)
      = [Call.Set "x" (some Sample.renamed) none, Call.Attach "x"]
    ∧ (volumeSet (some (logged (vfs.driver Sample.sys Sample.enum))) (⟨(), Sample.store⟩, [])
        Sample.renameAttach).w
      = Encode ResponseWriter.new
          (.setResponse { Volume := none, VolumeResponse := some ⟨ErrNotSupported⟩ }) :=
  ⟨(volumeSet_chain (vfs.driver Sample.sys Sample.enum) ⟨(), Sample.store⟩ Sample.renameAttach
      { Locator := some Sample.renamed, Spec := none,
        Action := some ⟨.VOLUME_ACTION_PARAM_ON, .VOLUME_ACTION_PARAM_NONE, ""⟩ } "x"
      rfl rfl).1,
    by decide, by decide⟩

/-! ## The gateway on the vfs driver: partial application -/

/-- C6, as stated, fails: a request on the existing volume `x` that turns
attach on and carries a new locator and a new spec is answered NotSupported,
and a following Inspect shows the record as it was, with neither the new
locator nor the new spec. -/
theorem locator_change_survives_counterexample :
    (volumeSet (some (vfs.driver Sample.sys Sample.enum)) ⟨(), Sample.store⟩
        Sample.respecAttach).w
      = Encode ResponseWriter.new
          (.setResponse { Volume := none, VolumeResponse := some ⟨ErrNotSupported⟩ })
    ∧ Inspect (volumeSet (some (vfs.driver Sample.sys Sample.enum)) ⟨(), Sample.store⟩
        Sample.respecAttach).drv.kv ["x"] = ([Sample.vol], none)
    ∧ Sample.vol.Locator ≠ some Sample.renamed ∧ Sample.vol.Spec ≠ some Sample.resized := by
  decide

/-- C6, amended: on the vfs driver, for every existing volume and every
compound update that turns attach on and carries a locator change and no
spec change, the response reports NotSupported and a following Inspect shows
the record with the new locator; when the request carries a spec change, the
response reports NotSupported and the driver state is as it was. -/
theorem locator_change_survives {σ : Type} (sys : Sys σ)
    (enum : Store → VolumeLocator → List (String × String) → List Volume × Option String)
    (s : State σ) (r : Request VolumeSetRequest) (req : VolumeSetRequest) (volumeID : String)
    (v : Volume) (hbody : r.body = .ok req) (hid : parseVolumeID r = .ok volumeID)
    (hv : s.kv.get volumeID = some v) :
    (∀ locator a, req.Locator = some locator → req.Spec = none → req.Action = some a →
        a.Attach = .VOLUME_ACTION_PARAM_ON →
        (volumeSet (some (vfs.driver sys enum)) s r).w
          = Encode ResponseWriter.new
              (.setResponse { Volume := none, VolumeResponse := some ⟨ErrNotSupported⟩ })
        ∧ Inspect (volumeSet (some (vfs.driver sys enum)) s r).drv.kv [volumeID]
          = ([{ v with Locator := some locator }], none))
    ∧ (∀ spec, req.Spec = some spec →
        (volumeSet (some (vfs.driver sys enum)) s r).w
          = Encode ResponseWriter.new
              (.setResponse { Volume := none, VolumeResponse := some ⟨ErrNotSupported⟩ })
        ∧ (volumeSet (some (vfs.driver sys enum)) s r).drv.kv = s.kv) := by
  have hvid : v.Id = volumeID := Store.get_id hv
  refine ⟨?_, ?_⟩
  · intro locator a hl hs ha hon
    rcases a with ⟨att, mnt, path⟩
    simp only at hon
    subst hon
    have hg : (s.kv.put { v with Locator := some locator }).get volumeID
        = some { v with Locator := some locator } := by
      have h := Store.get_put_same s.kv { v with Locator := some locator }
      simpa [hvid] using h
    simp [volumeSet, hbody, hid, hl, hs, ha, vfs.driver, vfs.Set, GetVol_of_get hv, UpdateVol,
      volumeSetAction, volumeSetReply, Inspect, GetVol_of_get hg]
  · intro spec hs
    simp [volumeSet, hbody, hid, hs, vfs.driver, vfs.Set, volumeSetAction, volumeSetReply]

/-- Witness of C6, amended: the rename with attach on, and the spec change, on
the existing volume `x`. -/
theorem locator_change_survives_witness :
    ((volumeSet (some (vfs.driver Sample.sys Sample.enum)) ⟨(), Sample.store⟩
          Sample.renameAttach).w
        = Encode ResponseWriter.new
            (.setResponse { Volume := none, VolumeResponse := some ⟨ErrNotSupported⟩ })
      ∧ Inspect (volumeSet (some (vfs.driver Sample.sys Sample.enum)) ⟨(), Sample.store⟩
          Sample.renameAttach).drv.kv ["x"]
        = ([{ Sample.vol with Locator := some Sample.renamed }], none))
    ∧ ((volumeSet (some (vfs.driver Sample.sys Sample.enum)) ⟨(), Sample.store⟩
          Sample.respecAttach).w
        = Encode ResponseWriter.new
            (.setResponse { Volume := none, VolumeResponse := some ⟨ErrNotSupported⟩ })
      ∧ (volumeSet (some (vfs.driver Sample.sys Sample.enum)) ⟨(), Sample.store⟩
          Sample.respecAttach).drv.kv = Sample.store) :=
  ⟨(locator_change_survives Sample.sys Sample.enum ⟨(), Sample.store⟩ Sample.renameAttach
      { Locator := some Sample.renamed, Spec := none,
        Action := some ⟨.VOLUME_ACTION_PARAM_ON, .VOLUME_ACTION_PARAM_NONE, ""⟩ } "x"
      Sample.vol rfl rfl (by decide)).1 Sample.renamed
      ⟨.VOLUME_ACTION_PARAM_ON, .VOLUME_ACTION_PARAM_NONE, ""⟩ rfl rfl rfl rfl,
   (locator_change_survives Sample.sys Sample.enum ⟨(), Sample.store⟩ Sample.respecAttach
      { Locator := some Sample.renamed, Spec := some Sample.resized,
        Action := some ⟨.VOLUME_ACTION_PARAM_ON, .VOLUME_ACTION_PARAM_NONE, ""⟩ } "x"
      Sample.vol rfl rfl (by decide)).2 Sample.resized rfl⟩

end OpenStorage
